import Mathlib

/-!
# Verification of the artwork table component (`src/components/Showcase.tsx`)

This file gives a shallow embedding of the `ArtworkDataTable` React component:
its view state, the page fetcher (`fetchArtworks`), the selection tracker
(`onSelectionChange`, the Clear Selection button), the bulk-select control
(`handleRowSelectionSubmit`) and the date column renderer (`dateTemplate`),
and proves (or refutes) the specified properties of the cross-page
incremental-selection algorithm.

Modelling conventions:
* React `useState` values and the `remainingToSelect` ref are the fields of
  `ShowcaseState`; every event handler is a state transformer.
* The `selectedArtworks` object (a map from record id to record) is an
  insertion-ordered association list `List Artwork`; `insertArtwork` mirrors
  JavaScript property assignment `obj[id] = artwork` (update in place when the
  key exists, append otherwise).
* JavaScript `x || default` on a possibly-missing field is `jsOrString` /
  `jsOrDate` on an `Option`: it substitutes the default for a missing value and
  also for the falsy present values `""` and `0`.
* `fetchArtworks` closes over the `selectedArtworks` value of the render in
  which it was created; the spread `{...selectedArtworks}` therefore reads that
  snapshot, not the state at completion time.  `fetchSuccess` accordingly takes
  the closure snapshot as an explicit first argument.
* Toast notifications are counted by a `toasts` field.
-/

/-- A date cell after normalisation: a year, or the sentinel string `"N/A"`
(produced by `artwork.date_start || 'N/A'` when the source value is falsy). -/
inductive DateVal where
  | year (n : Int)
  | na
deriving DecidableEq, Repr

/-- How a `DateVal` is rendered as text (a number interpolates via its decimal
representation in a JS template string; the sentinel is already a string). -/
def dateValToString : DateVal → String
  | .year n => toString n
  | .na => "N/A"

/-- The normalised record handled by the table (interface `Artwork`). -/
structure Artwork where
  id : Nat
  title : String
  place_of_origin : String
  artist_display : String
  inscriptions : String
  date_start : DateVal
  date_end : DateVal
deriving DecidableEq, Repr

/-- A raw record as delivered by the remote data source, before normalisation:
each defaultable field is optional (`none` models JSON `null`/absent). -/
structure RawArtwork where
  id : Nat
  title : String
  place_of_origin : Option String
  artist_display : Option String
  inscriptions : Option String
  date_start : Option Int
  date_end : Option Int
deriving DecidableEq, Repr

/-- JavaScript `v || d` for a string-valued field: `d` when the field is
missing or the empty string (both falsy), the field's value otherwise. -/
def jsOrString (v : Option String) (d : String) : String :=
  match v with
  | none => d
  | some s => if s = "" then d else s

/-- JavaScript `v || 'N/A'` for a year-valued field: `N/A` when the field is
missing or `0` (both falsy), the year otherwise. -/
def jsOrDate (v : Option Int) : DateVal :=
  match v with
  | none => .na
  | some n => if n = 0 then .na else .year n

/-- The normalisation applied to each fetched record
(the `data.data.map` callback in `fetchArtworks`). -/
def transformArtwork (a : RawArtwork) : Artwork :=
  { id := a.id
    title := a.title
    place_of_origin := jsOrString a.place_of_origin "Unknown"
    artist_display := jsOrString a.artist_display "Unknown Artist"
    inscriptions := jsOrString a.inscriptions "No Inscriptions"
    date_start := jsOrDate a.date_start
    date_end := jsOrDate a.date_end }

/-- The date column body (`dateTemplate`): a single value when start and end
compare equal under `===`, otherwise the template string `start - end`. -/
def dateTemplate (rowData : Artwork) : String :=
  if rowData.date_start = rowData.date_end then
    dateValToString rowData.date_start
  else
    dateValToString rowData.date_start ++ " - " ++ dateValToString rowData.date_end

/-- JavaScript object assignment `m[a.id] = a` on an id-keyed map held as an
insertion-ordered list: replace the entry with the same key, else append. -/
def insertArtwork (sel : List Artwork) (a : Artwork) : List Artwork :=
  if sel.any (fun b => b.id = a.id) then
    sel.map (fun b => if b.id = a.id then a else b)
  else
    sel ++ [a]

/-- The component's view state: the `useState` hooks, the `remainingToSelect`
ref, and a counter of toast notifications shown so far. -/
structure ShowcaseState where
  selectedArtworks : List Artwork
  artworks : List Artwork
  loading : Bool
  currentPage : Nat
  totalRecords : Nat
  rows : Nat
  rowsToSelect : String
  totalSelected : Nat
  remainingToSelect : Int
  toasts : Nat
deriving DecidableEq, Repr

/-- The state at mount: hooks initialised as in the component body. -/
def initialState : ShowcaseState :=
  { selectedArtworks := []
    artworks := []
    loading := false
    currentPage := 1
    totalRecords := 0
    rows := 12
    rowsToSelect := ""
    totalSelected := 0
    remainingToSelect := 0
    toasts := 0 }

/-- `setLoading(true)` at the top of `fetchArtworks`, before the request. -/
def fetchStart (s : ShowcaseState) : ShowcaseState :=
  { s with loading := true }

/-- The successful-completion continuation of `fetchArtworks`: store the page
and total, clear the loading flag, then, while `remainingToSelect` is
positive, sweep the leading `min(remaining, length)` records of the page into
the selection (spreading the closure snapshot `snap` of `selectedArtworks`),
decrement the counter and add the swept count to `totalSelected`. -/
def fetchSuccess (snap : List Artwork) (s : ShowcaseState)
    (records : List Artwork) (total : Nat) : ShowcaseState :=
  let s1 := { s with artworks := records, totalRecords := total, loading := false }
  if s1.remainingToSelect > 0 then
    let toSelect : Nat := min s1.remainingToSelect.toNat records.length
    let newSelections := (records.take toSelect).foldl insertArtwork snap
    { s1 with
        selectedArtworks := newSelections
        remainingToSelect := s1.remainingToSelect - (toSelect : Int)
        totalSelected := s1.totalSelected + toSelect }
  else s1

/-- An ordinary page load: the `useEffect`-created `fetchArtworks` closes over
the current render's `selectedArtworks`, so the snapshot is the state's own
selection. -/
def pageLoad (s : ShowcaseState) (records : List Artwork) (total : Nat) : ShowcaseState :=
  fetchSuccess s.selectedArtworks s records total

/-- The catch branch of `fetchArtworks`: clear the loading flag and show one
error toast; no other state is touched. -/
def fetchFailure (s : ShowcaseState) : ShowcaseState :=
  { s with loading := false, toasts := s.toasts + 1 }

/-- Value of the leading decimal digits of `cs`, accumulating onto `acc`,
stopping at the first non-digit (the digit-consuming loop of `parseInt`). -/
def digitsPrefixVal : List Char → Nat → Nat
  | c :: rest, acc =>
      if c.isDigit then digitsPrefixVal rest (acc * 10 + (c.toNat - 48)) else acc
  | [], acc => acc

/-- `none` when `cs` does not start with a digit (so `parseInt` yields `NaN`),
otherwise the value of the maximal digit run at the front. -/
def parseDigits : List Char → Option Nat
  | c :: rest => if c.isDigit then some (digitsPrefixVal rest (c.toNat - 48)) else none
  | [] => none

/-- JavaScript `parseInt(s)` restricted to base-10 inputs: skip leading
whitespace, read an optional sign, then the maximal run of decimal digits;
`none` models `NaN`.  (The builtin's automatic hexadecimal mode for a
leading `0x` is outside the inputs this component deals with and is not
modelled.) -/
def parseIntJS (s : String) : Option Int :=
  match s.data.dropWhile (fun c => c.isWhitespace) with
  | [] => none
  | c :: rest =>
      if c = '-' then (parseDigits rest).map (fun n => -(n : Int))
      else if c = '+' then (parseDigits rest).map (fun n => (n : Int))
      else (parseDigits (c :: rest)).map (fun n => (n : Int))

/-- `handleRowSelectionSubmit`: parse the input; on `NaN` or a non-positive
value return unchanged (no fetch).  Otherwise clear the selection and count,
set the pending counter, blank the input, and report that a fetch of the
current page was triggered (the `Bool`). -/
def handleRowSelectionSubmit (s : ShowcaseState) : ShowcaseState × Bool :=
  match parseIntJS s.rowsToSelect with
  | none => (s, false)
  | some numRows =>
      if numRows ≤ 0 then (s, false)
      else
        ({ s with
            selectedArtworks := []
            totalSelected := 0
            remainingToSelect := numRows
            rowsToSelect := "" }, true)

/-- The submit flow including the completion of the fetch it triggers:
`fetchArtworks` is called from the same render as the submit handler, so its
closure snapshot of `selectedArtworks` is the PRE-submit selection, not the
freshly cleared one. -/
def submitAndFetchCurrent (s : ShowcaseState)
    (records : List Artwork) (total : Nat) : ShowcaseState :=
  let r := handleRowSelectionSubmit s
  if r.2 then fetchSuccess s.selectedArtworks r.1 records total else r.1

/-- `onSelectionChange`: rebuild the selection map from the supplied list, set
the count to the list's length, and, while the pending counter is positive,
decrement it by the list's length floored at zero. -/
def onSelectionChange (s : ShowcaseState) (selection : List Artwork) : ShowcaseState :=
  let newSelections := selection.foldl insertArtwork []
  let s1 := { s with selectedArtworks := newSelections, totalSelected := selection.length }
  if s1.remainingToSelect > 0 then
    { s1 with remainingToSelect := max 0 (s1.remainingToSelect - (selection.length : Int)) }
  else s1

/-- The Clear Selection button: empty the selection, zero the count and the
pending counter. -/
def clearSelection (s : ShowcaseState) : ShowcaseState :=
  { s with selectedArtworks := [], totalSelected := 0, remainingToSelect := 0 }

/-- `onPage`: record the new 1-based page index and page size. -/
def onPageNav (s : ShowcaseState) (page rowCount : Nat) : ShowcaseState :=
  { s with currentPage := page, rows := rowCount }

/-- Typing into the bulk-select input (`onChange` of the numeric input). -/
def setRowsToSelect (s : ShowcaseState) (v : String) : ShowcaseState :=
  { s with rowsToSelect := v }

/-- The discrete UI / network events that drive the component.  A fetch
completion carries the closure snapshot of `selectedArtworks` it was created
with (over-approximated as arbitrary, which covers both fresh and stale
closures). -/
inductive Event where
  | fetchStartEv
  | fetchSuccessEv (snap : List Artwork) (records : List Artwork) (total : Nat)
  | fetchFailureEv
  | selectionChangeEv (sel : List Artwork)
  | submitEv
  | clearEv
  | pageNavEv (page rowCount : Nat)
  | inputEv (v : String)

/-- One event handled by the component. -/
def step (s : ShowcaseState) : Event → ShowcaseState
  | .fetchStartEv => fetchStart s
  | .fetchSuccessEv snap records total => fetchSuccess snap s records total
  | .fetchFailureEv => fetchFailure s
  | .selectionChangeEv sel => onSelectionChange s sel
  | .submitEv => (handleRowSelectionSubmit s).1
  | .clearEv => clearSelection s
  | .pageNavEv page rowCount => onPageNav s page rowCount
  | .inputEv v => setRowsToSelect s v

/-- The states the component can reach from mount by handling events. -/
inductive Reachable : ShowcaseState → Prop where
  | init : Reachable initialState
  | step {s : ShowcaseState} (hs : Reachable s) (e : Event) : Reachable (step s e)

/-- A test record with the given id and defaulted presentation fields. -/
def mkArt (i : Nat) : Artwork :=
  { id := i
    title := ""
    place_of_origin := "Unknown"
    artist_display := "Unknown Artist"
    inscriptions := "No Inscriptions"
    date_start := .na
    date_end := .na }

/-- First page of 12 test records (ids 0–11). -/
def page1 : List Artwork := (List.range 12).map mkArt

/-- Second page of 12 test records (ids 12–23). -/
def page2 : List Artwork := (List.range 12).map (fun i => mkArt (12 + i))

/-- Third page of 12 test records (ids 24–35). -/
def page3 : List Artwork := (List.range 12).map (fun i => mkArt (24 + i))

/-- An in-flight `fetchArtworks` call: the page it was requested for and the
closure-captured `selectedArtworks` value at its creation. -/
structure FetchReq where
  page : Nat
  snap : List Artwork
deriving DecidableEq, Repr

/-- The component together with its outstanding network requests.  Nothing in
the source deduplicates or cancels requests, so `pending` is an unbounded
queue; completions may be applied in any arrival order. -/
structure AsyncState where
  ui : ShowcaseState
  pending : List FetchReq
deriving DecidableEq, Repr

/-- Invoking `fetchArtworks page`: set the loading flag and register the
request, capturing the current selection for the completion's closure. -/
def startFetch (st : AsyncState) (page : Nat) : AsyncState :=
  { ui := fetchStart st.ui
    pending := st.pending ++ [{ page := page, snap := st.ui.selectedArtworks }] }

/-- A pagination event followed by the `useEffect` re-run it causes: update
`currentPage`, then start a fetch of that page. -/
def navTo (st : AsyncState) (page : Nat) : AsyncState :=
  startFetch { st with ui := onPageNav st.ui page st.ui.rows } page

/-- Arrival of the response to the `i`-th outstanding request: the completion
runs `fetchSuccess` with that request's closure snapshot, unconditionally —
the source has no check that the request still matches `currentPage`. -/
def completeAt (st : AsyncState) (i : Nat) (records : List Artwork) (total : Nat) : AsyncState :=
  match st.pending.get? i with
  | some req =>
      { ui := fetchSuccess req.snap st.ui records total
        pending := st.pending.eraseIdx i }
  | none => st

/-- C1 scenario: a fresh bulk-select with a pending counter of 20. -/
def c1s0 : ShowcaseState := { initialState with remainingToSelect := 20 }

/-- C1 scenario after the first page of 12 loads. -/
def c1s1 : ShowcaseState := pageLoad c1s0 page1 100

/-- C1 scenario after the second page of 12 loads. -/
def c1s2 : ShowcaseState := pageLoad c1s1 page2 100

/-- C1 scenario after a third page loads (counter already exhausted). -/
def c1s3 : ShowcaseState := pageLoad c1s2 page3 100

/-- C9 scenario: counter 13, then rapid navigation page 1 → 2 → 1 creating two
overlapping fetches before either response arrives. -/
def c9s0 : AsyncState :=
  { ui := { initialState with remainingToSelect := 13 }, pending := [] }

/-- C9 scenario after navigating to page 2 (fetch of page 2 outstanding). -/
def c9s1 : AsyncState := navTo c9s0 2

/-- C9 scenario after navigating back to page 1 (both fetches outstanding). -/
def c9s2 : AsyncState := navTo c9s1 1

/-- C9 scenario after the page-1 response (the later, matching request) arrives
first. -/
def c9s3 : AsyncState := completeAt c9s2 1 page1 100

/-- C9 scenario after the stale page-2 response arrives last. -/
def c9s4 : AsyncState := completeAt c9s3 0 page2 100

/-- Test record with id 99, used as a previously selected off-page record. -/
def artA : Artwork := mkArt 99

/-- Test record with id 1, used as the leading record of the current page. -/
def artB : Artwork := mkArt 1

/-- C2 scenario: one record already selected, bulk-select input `"1"`. -/
def c2Pre : ShowcaseState :=
  { initialState with selectedArtworks := [artA], totalSelected := 1, rowsToSelect := "1" }

/-- C3 scenario: one record already selected, pending counter 5. -/
def c3Pre : ShowcaseState :=
  { initialState with selectedArtworks := [artA], totalSelected := 1, remainingToSelect := 5 }

/-- C10 scenario: one record already selected, bulk-select input `"3abc"`. -/
def c10Pre : ShowcaseState :=
  { initialState with selectedArtworks := [artA], totalSelected := 1, rowsToSelect := "3abc" }

/-- Modelled from the spec: "the number of records newly added in this call" —
how many of the supplied records were not previously in the Selection Set.
(The source's `onSelectionChange` computes no such quantity; this definition
exists only to state the spec's intended decrement for comparison.) -/
def newlyAddedCount (prev selection : List Artwork) : Nat :=
  (selection.filter (fun a => ! prev.any (fun b => b.id = a.id))).length

/-- A raw record whose present fields are falsy (`""` and `0`). -/
def rawFalsy : RawArtwork :=
  { id := 7
    title := "Untitled"
    place_of_origin := some ""
    artist_display := some "X"
    inscriptions := none
    date_start := some 0
    date_end := some 1900 }

/-- A raw record whose fields are all present and truthy. -/
def rawTruthy : RawArtwork :=
  { id := 3
    title := "T"
    place_of_origin := some "Paris"
    artist_display := some "A"
    inscriptions := some "inscribed"
    date_start := some 1900
    date_end := some 1905 }

lemma fetchSuccess_of_pos (snap : List Artwork) (s : ShowcaseState) (records : List Artwork)
    (total : Nat) (h : 0 < s.remainingToSelect) :
    fetchSuccess snap s records total =
      { s with
          artworks := records
          totalRecords := total
          loading := false
          selectedArtworks :=
            (records.take (min s.remainingToSelect.toNat records.length)).foldl insertArtwork snap
          remainingToSelect :=
            s.remainingToSelect - ((min s.remainingToSelect.toNat records.length : Nat) : Int)
          totalSelected := s.totalSelected + min s.remainingToSelect.toNat records.length } := by
  unfold fetchSuccess
  simp [h]

lemma fetchSuccess_of_nonpos (snap : List Artwork) (s : ShowcaseState) (records : List Artwork)
    (total : Nat) (h : s.remainingToSelect ≤ 0) :
    fetchSuccess snap s records total =
      { s with artworks := records, totalRecords := total, loading := false } := by
  unfold fetchSuccess
  simp [not_lt.mpr h]

lemma isDigit_not_whitespace (c : Char) (h : c.isDigit = true) : c.isWhitespace = false := by
  rcases hws : c.isWhitespace with _ | _
  · rfl
  · exfalso
    have := hws
    simp [Char.isWhitespace] at this
    rcases this with ((h1 | h1) | h1) | h1 <;> subst h1 <;> exact absurd h (by decide)

lemma isDigit_ne_minus (c : Char) (h : c.isDigit = true) : c ≠ '-' := by
  intro h1; subst h1; exact absurd h (by decide)

lemma isDigit_ne_plus (c : Char) (h : c.isDigit = true) : c ≠ '+' := by
  intro h1; subst h1; exact absurd h (by decide)

lemma digitsPrefixVal_append (ds suffix : List Char)
    (hds : ∀ c ∈ ds, c.isDigit = true)
    (hsuf : ∀ c, suffix.head? = some c → c.isDigit = false) :
    ∀ acc : Nat, digitsPrefixVal (ds ++ suffix) acc = digitsPrefixVal ds acc := by
  induction ds with
  | nil =>
      intro acc
      cases suffix with
      | nil => rfl
      | cons c cs => simp [digitsPrefixVal, hsuf c rfl]
  | cons d ds ih =>
      intro acc
      have hd : d.isDigit = true := hds d (List.mem_cons_self _ _)
      simp only [List.cons_append, digitsPrefixVal, hd, if_true]
      exact ih (fun c hc => hds c (List.mem_cons_of_mem _ hc)) _

lemma parseDigits_digit_run (d : Char) (ds suffix : List Char)
    (hd : d.isDigit = true) (hds : ∀ c ∈ ds, c.isDigit = true)
    (hsuf : ∀ c, suffix.head? = some c → c.isDigit = false) :
    parseDigits (d :: (ds ++ suffix)) = parseDigits (d :: ds) := by
  simp only [parseDigits, hd, if_true]
  rw [digitsPrefixVal_append ds suffix hds hsuf]

lemma parseIntJS_digit_run (d : Char) (ds suffix : List Char)
    (hd : d.isDigit = true) (hds : ∀ c ∈ ds, c.isDigit = true)
    (hsuf : ∀ c, suffix.head? = some c → c.isDigit = false) :
    parseIntJS (String.mk (d :: ds ++ suffix)) = parseIntJS (String.mk (d :: ds)) := by
  unfold parseIntJS
  simp only [List.cons_append, List.dropWhile_cons, isDigit_not_whitespace d hd,
    Bool.false_eq_true, if_false]
  simp only [isDigit_ne_minus d hd, isDigit_ne_plus d hd, if_false]
  rw [parseDigits_digit_run d ds suffix hd hds hsuf]

lemma onSelectionChange_remainingToSelect (s : ShowcaseState) (sel : List Artwork) :
    (onSelectionChange s sel).remainingToSelect =
      if 0 < s.remainingToSelect then max 0 (s.remainingToSelect - (sel.length : Int))
      else s.remainingToSelect := by
  unfold onSelectionChange
  by_cases h : 0 < s.remainingToSelect <;> simp [h]

lemma submit_of_parse_none (s : ShowcaseState) (h : parseIntJS s.rowsToSelect = none) :
    handleRowSelectionSubmit s = (s, false) := by
  unfold handleRowSelectionSubmit
  rw [h]

lemma submit_of_parse_nonpos (s : ShowcaseState) (n : Int)
    (h : parseIntJS s.rowsToSelect = some n) (hn : n ≤ 0) :
    handleRowSelectionSubmit s = (s, false) := by
  unfold handleRowSelectionSubmit
  rw [h]
  exact if_pos hn

lemma submit_of_parse_pos (s : ShowcaseState) (n : Int)
    (h : parseIntJS s.rowsToSelect = some n) (hn : 0 < n) :
    handleRowSelectionSubmit s =
      ({ s with
          selectedArtworks := []
          totalSelected := 0
          remainingToSelect := n
          rowsToSelect := "" }, true) := by
  unfold handleRowSelectionSubmit
  rw [h]
  exact if_neg (not_le.mpr hn)

lemma submit_agrees_of_parse_eq (a b : ShowcaseState)
    (hsel : a.selectedArtworks = b.selectedArtworks)
    (htot : a.totalSelected = b.totalSelected)
    (hrem : a.remainingToSelect = b.remainingToSelect)
    (hp : parseIntJS a.rowsToSelect = parseIntJS b.rowsToSelect) :
    (handleRowSelectionSubmit a).2 = (handleRowSelectionSubmit b).2
    ∧ (handleRowSelectionSubmit a).1.selectedArtworks
        = (handleRowSelectionSubmit b).1.selectedArtworks
    ∧ (handleRowSelectionSubmit a).1.totalSelected = (handleRowSelectionSubmit b).1.totalSelected
    ∧ (handleRowSelectionSubmit a).1.remainingToSelect
        = (handleRowSelectionSubmit b).1.remainingToSelect := by
  cases hpa : parseIntJS a.rowsToSelect with
  | none =>
      have hpb : parseIntJS b.rowsToSelect = none := by rw [← hp, hpa]
      rw [submit_of_parse_none a hpa, submit_of_parse_none b hpb]
      exact ⟨rfl, hsel, htot, hrem⟩
  | some n =>
      have hpb : parseIntJS b.rowsToSelect = some n := by rw [← hp, hpa]
      by_cases hn : n ≤ 0
      · rw [submit_of_parse_nonpos a n hpa hn, submit_of_parse_nonpos b n hpb hn]
        exact ⟨rfl, hsel, htot, hrem⟩
      · rw [submit_of_parse_pos a n hpa (not_le.mp hn), submit_of_parse_pos b n hpb (not_le.mp hn)]
        exact ⟨rfl, rfl, rfl, rfl⟩

lemma step_remaining_nonneg (s : ShowcaseState) (e : Event)
    (h : 0 ≤ s.remainingToSelect) : 0 ≤ (step s e).remainingToSelect := by
  cases e with
  | fetchStartEv => exact h
  | fetchSuccessEv snap records total =>
      show 0 ≤ (fetchSuccess snap s records total).remainingToSelect
      by_cases hpos : 0 < s.remainingToSelect
      · rw [fetchSuccess_of_pos snap s records total hpos]
        show 0 ≤ s.remainingToSelect - ((min s.remainingToSelect.toNat records.length : Nat) : Int)
        omega
      · rw [fetchSuccess_of_nonpos snap s records total (not_lt.mp hpos)]
        exact h
  | fetchFailureEv => exact h
  | selectionChangeEv sel =>
      show 0 ≤ (onSelectionChange s sel).remainingToSelect
      rw [onSelectionChange_remainingToSelect]
      split
      · exact le_max_left _ _
      · exact h
  | submitEv =>
      show 0 ≤ (handleRowSelectionSubmit s).1.remainingToSelect
      cases hp : parseIntJS s.rowsToSelect with
      | none => rw [submit_of_parse_none s hp]; exact h
      | some n =>
          by_cases hn : n ≤ 0
          · rw [submit_of_parse_nonpos s n hp hn]; exact h
          · rw [submit_of_parse_pos s n hp (not_le.mp hn)]
            show 0 ≤ n
            omega
  | clearEv => exact le_refl 0
  | pageNavEv page rowCount => exact h
  | inputEv v => exact h

lemma reachable_remaining_nonneg (s : ShowcaseState) (h : Reachable s) :
    0 ≤ s.remainingToSelect := by
  induction h with
  | init => decide
  | step hs e ih => exact step_remaining_nonneg _ e ih

/-- C1: a page sweep adds the leading `min(counter, length)` records of the
page to the selection, decrements the counter and increments the selected
count by exactly that amount; with counter 20 and pages of 12: after page one
counter 8 / selected 12, after page two counter 0 / selected 20, and a third
page sweeps nothing. -/
theorem auto_select_sweep_spec :
    (∀ (s : ShowcaseState) (records : List Artwork) (total : Nat),
        0 ≤ s.remainingToSelect →
          (pageLoad s records total).selectedArtworks
              = (records.take (min s.remainingToSelect.toNat records.length)).foldl
                  insertArtwork s.selectedArtworks
            ∧ (pageLoad s records total).remainingToSelect
                = s.remainingToSelect - ((min s.remainingToSelect.toNat records.length : Nat) : Int)
            ∧ (pageLoad s records total).totalSelected
                = s.totalSelected + min s.remainingToSelect.toNat records.length)
      ∧ c1s1.remainingToSelect = 8 ∧ c1s1.totalSelected = 12 ∧ c1s1.selectedArtworks = page1
      ∧ c1s2.remainingToSelect = 0 ∧ c1s2.totalSelected = 20
      ∧ c1s2.selectedArtworks = page1 ++ page2.take 8
      ∧ c1s3.selectedArtworks = c1s2.selectedArtworks
      ∧ c1s3.totalSelected = c1s2.totalSelected
      ∧ c1s3.remainingToSelect = 0 := by
  refine ⟨?_, by decide, by decide, by decide, by decide, by decide, by decide, by decide,
    by decide, by decide⟩
  intro s records total h
  unfold pageLoad
  rcases lt_or_eq_of_le h with hpos | h0
  · rw [fetchSuccess_of_pos _ _ _ _ hpos]
    exact ⟨rfl, rfl, rfl⟩
  · rw [fetchSuccess_of_nonpos _ _ _ _ (le_of_eq h0.symm)]
    simp [← h0]

/-- Witness for C1: evaluated at the fresh counter-20 state and the first
page of 12 records. -/
theorem auto_select_sweep_spec_check :
    (pageLoad c1s0 page1 100).remainingToSelect
        = c1s0.remainingToSelect - ((min c1s0.remainingToSelect.toNat page1.length : Nat) : Int) :=
  (auto_select_sweep_spec.1 c1s0 page1 100 (by decide)).2.1

/-- C2 (refuted): after submitting a valid bulk-select target, the sweep of the
triggered fetch spreads the closure-captured PRE-submit selection, so a record
selected before the submission (id 99) survives into the post-sweep Selection
Set instead of the set being exactly the leading record of the page. -/
theorem submit_sweep_keeps_presubmit_selection :
    parseIntJS c2Pre.rowsToSelect = some 1
    ∧ artA ∈ c2Pre.selectedArtworks
    ∧ (submitAndFetchCurrent c2Pre [artB] 100).selectedArtworks = [artA, artB]
    ∧ artA ∈ (submitAndFetchCurrent c2Pre [artB] 100).selectedArtworks
    ∧ (submitAndFetchCurrent c2Pre [artB] 100).selectedArtworks ≠ [artB]
    ∧ min (1 : Nat) ([artB] : List Artwork).length = 1 := by
  decide

/-- C3 counterexample: with one record already selected and counter 5, a
manual selection event supplying that record plus one new one (newly added
count 1) leaves the counter at 3, not at 5 - 1 = 4: the code decrements by the
full length of the supplied selection, not by the newly added count. -/
theorem manual_decrement_exceeds_newly_added :
    newlyAddedCount c3Pre.selectedArtworks [artA, artB] = 1
    ∧ c3Pre.remainingToSelect = 5
    ∧ (onSelectionChange c3Pre [artA, artB]).remainingToSelect = 3
    ∧ c3Pre.remainingToSelect - (newlyAddedCount c3Pre.selectedArtworks [artA, artB] : Int) = 4
    ∧ (3 : Int) ≠ 4 := by
  decide

/-- C3 (amended): while the counter is positive, a manual selection-change
event decrements it by the TOTAL length of the supplied selection (records
already selected included), floored at zero; the selection map is rebuilt from
the supplied list and the selected count set to its length. -/
theorem manual_decrement_by_selection_length (s : ShowcaseState) (selection : List Artwork)
    (h : 0 < s.remainingToSelect) :
    (onSelectionChange s selection).remainingToSelect
        = max 0 (s.remainingToSelect - (selection.length : Int))
    ∧ (onSelectionChange s selection).totalSelected = selection.length
    ∧ (onSelectionChange s selection).selectedArtworks = selection.foldl insertArtwork []
    ∧ 0 ≤ (onSelectionChange s selection).remainingToSelect := by
  refine ⟨?_, ?_, ?_, ?_⟩
  · rw [onSelectionChange_remainingToSelect, if_pos h]
  · simp only [onSelectionChange]
    split <;> rfl
  · simp only [onSelectionChange]
    split <;> rfl
  · rw [onSelectionChange_remainingToSelect, if_pos h]
    exact le_max_left _ _

/-- Witness for the amended C3, at the counter-5 state with a two-record
selection event. -/
theorem manual_decrement_by_selection_length_check :
    (onSelectionChange c3Pre [artA, artB]).remainingToSelect
        = max 0 (c3Pre.remainingToSelect - (([artA, artB] : List Artwork).length : Int)) :=
  (manual_decrement_by_selection_length c3Pre [artA, artB] (by decide)).1

/-- C4: in every reachable state the pending counter is non-negative; a page
load with the counter at zero sweeps nothing (selection, selected count and
counter all unchanged); Clear Selection zeroes counter, count and set; and the
only event that can move the counter away from zero is a bulk-select
submission. -/
theorem counter_nonneg_and_idle_after_zero :
    (∀ s : ShowcaseState, Reachable s → 0 ≤ s.remainingToSelect)
    ∧ (∀ (snap : List Artwork) (s : ShowcaseState) (records : List Artwork) (total : Nat),
        s.remainingToSelect = 0 →
          (fetchSuccess snap s records total).selectedArtworks = s.selectedArtworks
          ∧ (fetchSuccess snap s records total).totalSelected = s.totalSelected
          ∧ (fetchSuccess snap s records total).remainingToSelect = 0)
    ∧ (∀ s : ShowcaseState,
        (clearSelection s).remainingToSelect = 0 ∧ (clearSelection s).totalSelected = 0
        ∧ (clearSelection s).selectedArtworks = [])
    ∧ (∀ (s : ShowcaseState) (e : Event), s.remainingToSelect = 0 →
        (step s e).remainingToSelect ≠ 0 → e = Event.submitEv) := by
  refine ⟨reachable_remaining_nonneg, ?_, ?_, ?_⟩
  · intro snap s records total h0
    rw [fetchSuccess_of_nonpos snap s records total (le_of_eq h0)]
    exact ⟨rfl, rfl, h0⟩
  · intro s
    exact ⟨rfl, rfl, rfl⟩
  · intro s e h0 hne
    cases e with
    | fetchStartEv => exact absurd h0 hne
    | fetchSuccessEv snap records total =>
        exfalso
        apply hne
        show (fetchSuccess snap s records total).remainingToSelect = 0
        rw [fetchSuccess_of_nonpos snap s records total (le_of_eq h0)]
        exact h0
    | fetchFailureEv => exact absurd h0 hne
    | selectionChangeEv sel =>
        exfalso
        apply hne
        show (onSelectionChange s sel).remainingToSelect = 0
        rw [onSelectionChange_remainingToSelect, if_neg (by omega)]
        exact h0
    | submitEv => rfl
    | clearEv => exact absurd rfl hne
    | pageNavEv page rowCount => exact absurd h0 hne
    | inputEv v => exact absurd h0 hne

/-- Witness for C4: the initial state is reachable with counter 0, and a page
load there sweeps nothing. -/
theorem counter_nonneg_and_idle_after_zero_check :
    0 ≤ initialState.remainingToSelect
    ∧ (fetchSuccess [] initialState page1 100).selectedArtworks = initialState.selectedArtworks :=
  ⟨counter_nonneg_and_idle_after_zero.1 initialState Reachable.init,
   (counter_nonneg_and_idle_after_zero.2.1 [] initialState page1 100 rfl).1⟩

/-- C5: a failed fetch (start followed by the catch branch) leaves the
displayed records, total count, Selection Set, selected count and pending
counter at their pre-failure values, clears the loading flag, and shows
exactly one toast notification. -/
theorem fetch_failure_preserves_state (s : ShowcaseState) :
    (fetchFailure (fetchStart s)).artworks = s.artworks
    ∧ (fetchFailure (fetchStart s)).totalRecords = s.totalRecords
    ∧ (fetchFailure (fetchStart s)).selectedArtworks = s.selectedArtworks
    ∧ (fetchFailure (fetchStart s)).totalSelected = s.totalSelected
    ∧ (fetchFailure (fetchStart s)).remainingToSelect = s.remainingToSelect
    ∧ (fetchFailure (fetchStart s)).currentPage = s.currentPage
    ∧ (fetchFailure (fetchStart s)).rowsToSelect = s.rowsToSelect
    ∧ (fetchFailure (fetchStart s)).loading = false
    ∧ (fetchFailure (fetchStart s)).toasts = s.toasts + 1 :=
  ⟨rfl, rfl, rfl, rfl, rfl, rfl, rfl, rfl, rfl⟩

/-- C6: submitting with a non-numeric input ("abc" parses to NaN) or a
non-positive one ("-3") is a complete no-op: the state is returned unchanged
and no fetch is triggered. -/
theorem invalid_submit_is_noop :
    parseIntJS "abc" = none
    ∧ parseIntJS "-3" = some (-3)
    ∧ (∀ s : ShowcaseState,
        (parseIntJS s.rowsToSelect = none
          ∨ ∃ n : Int, parseIntJS s.rowsToSelect = some n ∧ n ≤ 0) →
        handleRowSelectionSubmit s = (s, false)) := by
  refine ⟨by decide, by decide, ?_⟩
  intro s h
  rcases h with h | ⟨n, hn, hle⟩
  · exact submit_of_parse_none s h
  · exact submit_of_parse_nonpos s n hn hle

/-- Witness for C6: submitting with the input "-3" returns the state unchanged
and triggers no fetch. -/
theorem invalid_submit_is_noop_check :
    handleRowSelectionSubmit { initialState with rowsToSelect := "-3" }
      = ({ initialState with rowsToSelect := "-3" }, false) :=
  invalid_submit_is_noop.2.2 _ (Or.inr ⟨-3, by decide, by decide⟩)

/-- C7 counterexample: a record whose origin is present but empty (`""`) is
normalised to "Unknown", and a present year 0 is normalised to the "N/A"
sentinel — JavaScript `||` defaults on falsy PRESENT values, not only on
absent ones, so the fields do not always equal the source values when
present. -/
theorem transform_defaults_on_falsy_present_values :
    rawFalsy.place_of_origin = some ""
    ∧ (transformArtwork rawFalsy).place_of_origin = "Unknown"
    ∧ (transformArtwork rawFalsy).place_of_origin ≠ ""
    ∧ rawFalsy.date_start = some 0
    ∧ (transformArtwork rawFalsy).date_start = DateVal.na
    ∧ DateVal.na ≠ DateVal.year 0 := by
  decide

/-- C7 (amended): id and title pass through unchanged; origin, attribution and
inscriptions equal the source value when present and non-empty and default to
"Unknown" / "Unknown Artist" / "No Inscriptions" when absent or empty; each
date field equals the source year when present and non-zero and is the "N/A"
sentinel when absent or zero. -/
theorem transform_artwork_normalisation (r : RawArtwork) :
    (transformArtwork r).id = r.id
    ∧ (transformArtwork r).title = r.title
    ∧ ((r.place_of_origin = none ∨ r.place_of_origin = some "") →
        (transformArtwork r).place_of_origin = "Unknown")
    ∧ (∀ v : String, r.place_of_origin = some v → v ≠ "" →
        (transformArtwork r).place_of_origin = v)
    ∧ ((r.artist_display = none ∨ r.artist_display = some "") →
        (transformArtwork r).artist_display = "Unknown Artist")
    ∧ (∀ v : String, r.artist_display = some v → v ≠ "" →
        (transformArtwork r).artist_display = v)
    ∧ ((r.inscriptions = none ∨ r.inscriptions = some "") →
        (transformArtwork r).inscriptions = "No Inscriptions")
    ∧ (∀ v : String, r.inscriptions = some v → v ≠ "" →
        (transformArtwork r).inscriptions = v)
    ∧ ((r.date_start = none ∨ r.date_start = some 0) →
        (transformArtwork r).date_start = DateVal.na)
    ∧ (∀ y : Int, r.date_start = some y → y ≠ 0 →
        (transformArtwork r).date_start = DateVal.year y)
    ∧ ((r.date_end = none ∨ r.date_end = some 0) →
        (transformArtwork r).date_end = DateVal.na)
    ∧ (∀ y : Int, r.date_end = some y → y ≠ 0 →
        (transformArtwork r).date_end = DateVal.year y) := by
  refine ⟨rfl, rfl, ?_, ?_, ?_, ?_, ?_, ?_, ?_, ?_, ?_, ?_⟩
  · rintro (h | h) <;> simp [transformArtwork, jsOrString, h]
  · intro v hv hne
    simp [transformArtwork, jsOrString, hv, hne]
  · rintro (h | h) <;> simp [transformArtwork, jsOrString, h]
  · intro v hv hne
    simp [transformArtwork, jsOrString, hv, hne]
  · rintro (h | h) <;> simp [transformArtwork, jsOrString, h]
  · intro v hv hne
    simp [transformArtwork, jsOrString, hv, hne]
  · rintro (h | h) <;> simp [transformArtwork, jsOrDate, h]
  · intro y hy hne
    simp [transformArtwork, jsOrDate, hy, hne]
  · rintro (h | h) <;> simp [transformArtwork, jsOrDate, h]
  · intro y hy hne
    simp [transformArtwork, jsOrDate, hy, hne]

/-- Witness for the amended C7: a record with all fields present and truthy
passes its values through; a missing inscriptions field defaults. -/
theorem transform_artwork_normalisation_check :
    (transformArtwork rawTruthy).place_of_origin = "Paris"
    ∧ (transformArtwork rawTruthy).date_start = DateVal.year 1900
    ∧ (transformArtwork rawFalsy).inscriptions = "No Inscriptions" :=
  ⟨(transform_artwork_normalisation rawTruthy).2.2.2.1 "Paris" rfl (by decide),
   (transform_artwork_normalisation rawTruthy).2.2.2.2.2.2.2.2.2.1 1900 rfl (by decide),
   (transform_artwork_normalisation rawFalsy).2.2.2.2.2.2.1 (Or.inl rfl)⟩

/-- C8: the date column collapses to the single value when the two date cells
compare equal (in particular "1900" when both are the year 1900, and "N/A"
when both were omitted and so normalised to the sentinel), and shows the
"start - end" template string when they differ. -/
theorem date_template_rendering (a : Artwork) :
    (a.date_start = a.date_end → dateTemplate a = dateValToString a.date_start)
    ∧ (∀ y : Int, a.date_start = DateVal.year y → a.date_end = DateVal.year y →
        dateTemplate a = toString y)
    ∧ (a.date_start = DateVal.year 1900 → a.date_end = DateVal.year 1905 →
        dateTemplate a = "1900 - 1905")
    ∧ (a.date_start = DateVal.na → a.date_end = DateVal.na → dateTemplate a = "N/A") := by
  refine ⟨?_, ?_, ?_, ?_⟩
  · intro h
    simp [dateTemplate, h]
  · intro y h1 h2
    unfold dateTemplate
    rw [h1, h2, if_pos rfl]
    rfl
  · intro h1 h2
    unfold dateTemplate
    rw [h1, h2]
    decide
  · intro h1 h2
    unfold dateTemplate
    rw [h1, h2]
    decide

/-- Witness for C8: date cells (1900, 1900), (1900, 1905) and (N/A, N/A). -/
theorem date_template_rendering_check :
    dateTemplate { mkArt 0 with date_start := DateVal.year 1900, date_end := DateVal.year 1900 }
        = toString (1900 : Int)
    ∧ dateTemplate { mkArt 1 with date_start := DateVal.year 1900, date_end := DateVal.year 1905 }
        = "1900 - 1905"
    ∧ dateTemplate (mkArt 2) = "N/A" :=
  ⟨(date_template_rendering _).2.1 1900 rfl rfl,
   (date_template_rendering _).2.2.1 rfl rfl,
   (date_template_rendering _).2.2.2 rfl rfl⟩

/-- C9 (refuted): rapid navigation 1 → 2 → 1 leaves TWO fetches outstanding at
once (no serialisation or deduplication), and when the page-2 response arrives
after the user is back on page 1 its sweep is still applied: the stale
completion decrements the pending counter from 1 to 0 and overwrites the
displayed records with page 2 while page 1 is current. -/
theorem stale_fetch_completion_corrupts_counter :
    c9s2.pending.length = 2
    ∧ c9s3.ui.currentPage = 1
    ∧ (c9s3.pending.get? 0).map FetchReq.page = some 2
    ∧ c9s3.ui.remainingToSelect = 1
    ∧ c9s4.ui.remainingToSelect = 0
    ∧ c9s4.ui.artworks = page2
    ∧ c9s4.ui.currentPage = 1 := by
  decide

/-- C10: submitting an input made of a digit run followed by a non-digit
suffix parses to the same value as the digit run alone and produces the same
fetch decision, selection, selected count and pending counter; concretely,
"3abc" is accepted: the selection is cleared and the counter set to 3. -/
theorem numeric_prefix_input_accepted :
    (∀ (d : Char) (ds suffix : List Char) (s : ShowcaseState),
        d.isDigit = true → (∀ c ∈ ds, c.isDigit = true) →
        (∀ c, suffix.head? = some c → c.isDigit = false) →
          parseIntJS (String.mk (d :: ds ++ suffix)) = parseIntJS (String.mk (d :: ds))
          ∧ (handleRowSelectionSubmit (setRowsToSelect s (String.mk (d :: ds ++ suffix)))).2
              = (handleRowSelectionSubmit (setRowsToSelect s (String.mk (d :: ds)))).2
          ∧ (handleRowSelectionSubmit
                (setRowsToSelect s (String.mk (d :: ds ++ suffix)))).1.selectedArtworks
              = (handleRowSelectionSubmit
                  (setRowsToSelect s (String.mk (d :: ds)))).1.selectedArtworks
          ∧ (handleRowSelectionSubmit
                (setRowsToSelect s (String.mk (d :: ds ++ suffix)))).1.totalSelected
              = (handleRowSelectionSubmit
                  (setRowsToSelect s (String.mk (d :: ds)))).1.totalSelected
          ∧ (handleRowSelectionSubmit
                (setRowsToSelect s (String.mk (d :: ds ++ suffix)))).1.remainingToSelect
              = (handleRowSelectionSubmit
                  (setRowsToSelect s (String.mk (d :: ds)))).1.remainingToSelect)
    ∧ handleRowSelectionSubmit c10Pre
        = ({ c10Pre with
              selectedArtworks := []
              totalSelected := 0
              remainingToSelect := 3
              rowsToSelect := "" }, true) := by
  refine ⟨?_, by decide⟩
  intro d ds suffix s hd hds hsuf
  have hp := parseIntJS_digit_run d ds suffix hd hds hsuf
  have h2 := submit_agrees_of_parse_eq
      (setRowsToSelect s (String.mk (d :: ds ++ suffix)))
      (setRowsToSelect s (String.mk (d :: ds))) rfl rfl rfl hp
  exact ⟨hp, h2.1, h2.2.1, h2.2.2.1, h2.2.2.2⟩

/-- Witness for C10: the input "3abc" parses exactly as "3" does. -/
theorem numeric_prefix_input_accepted_check :
    parseIntJS (String.mk ['3', 'a', 'b', 'c']) = parseIntJS (String.mk ['3']) :=
  (numeric_prefix_input_accepted.1 '3' [] ['a', 'b', 'c'] initialState (by decide)
    (by intro c hc; cases hc)
    (by intro c hc; simp [List.head?] at hc; subst hc; decide)).1
